import Mathlib

/-!
Shallow embedding of the nvbenchr R binding (`src/R/src/nvbenchr.cpp`).

The binding marshals R values (SEXPs) into calls on the external nvbench
library, wraps native pointers into tagged external-pointer handles, and
maintains one process-wide `GlobalBenchmarkRegistry`.

Modelling conventions:
* An R value (SEXP) is the inductive `SEXPv`.  R doubles are modelled as
  rationals; `static_cast<int64>(double)` is rational truncation toward
  zero (`truncRat`).  Character scalars are length-one character vectors,
  as in R.
* `Rcpp::stop` / `Rf_error` produce the outcome `Outcome.rerror msg`.
  A C++ exception that escapes an entry point uncaught is the outcome
  `Outcome.native e`.
* Calls into the external nvbench library (not part of this repository)
  are parameterized by their result: either a value or a thrown exception
  (`NativeExc`), mirroring that the library may throw.
* Mutable process state (the registry flag, the benchmark manager list,
  transient state/launch objects) is the explicit `World` record; native
  pointers are positive indices into its lists (`0` is the null pointer).
  Dereferencing a dangling non-null pointer is undefined behaviour in the
  C++ source; the model arbitrarily returns a default object there, and
  theorems about heap contents carry validity hypotheses.
  The model contains no deallocation operation, matching the binding,
  which never frees a native object.
-/

/-- An exception thrown by the native nvbench library: either a
`std::exception` carrying a `what()` message, or an unknown exception. -/
inductive NativeExc : Type
  | std (what : String)
  | unknown
deriving DecidableEq, Repr

/-- The class attribute carried by an R external pointer: absent
(`R_NilValue`), present but not a character vector, or a nonempty
character vector (the code reads `STRING_ELT(cls, 0)`). -/
inductive ClsAttr : Type
  | attrNone
  | nonString
  | strs (hd : String) (tl : List String)
deriving DecidableEq, Repr

/-- Model of an R value (SEXP) as far as the binding inspects it.
`extptr addr owning cls` is an EXTPTRSXP: `addr` the stored native
pointer (0 = NULL), `owning` whether `Rcpp::XPtr` registered a finalizer,
`cls` the class attribute.  `num` is REALSXP (doubles as rationals),
`int` INTSXP, `strVec` STRSXP, `lgl` LGLSXP, `func` a function,
`rnil` R_NilValue, `other` any other type. -/
inductive SEXPv : Type
  | extptr (addr : Nat) (owning : Bool) (cls : ClsAttr)
  | strVec (ss : List String)
  | num (xs : List Rat)
  | int (xs : List Int)
  | lgl (b : Bool)
  | func (fid : Nat)
  | rnil
  | other
deriving DecidableEq, Repr

/-- Result of one call to an exported entry point: a normal R return
value, an R-level error signal (`Rcpp::stop` / `Rf_error`), or a native
C++ exception escaping the entry point uncaught. -/
inductive Outcome : Type
  | ok (v : SEXPv)
  | rerror (msg : String)
  | native (e : NativeExc)
deriving DecidableEq, Repr

/-- `wrap_ptr` (nvbenchr.cpp line 74): builds `Rcpp::XPtr<T>(ptr, false)`
— ownership disabled, no finalizer — and sets the class attribute to the
single tag `cls_name`. -/
def wrap_ptr (addr : Nat) (cls_name : String) : SEXPv :=
  SEXPv.extptr addr false (ClsAttr.strs cls_name [])

/-- `unwrap_ptr` (line 82): checks, in order, that the value is an
external pointer, that its class attribute is a character vector, that
its first class string equals the expected tag, and that the stored
pointer is non-null; only then is the address handed back to be
dereferenced.  Each failed check raises an R error. -/
def unwrap_ptr (obj : SEXPv) (expected : String) : Except String Nat :=
  match obj with
  | SEXPv.extptr addr _ cls =>
    match cls with
    | ClsAttr.attrNone => Except.error ("Invalid external pointer class for " ++ expected)
    | ClsAttr.nonString => Except.error ("Invalid external pointer class for " ++ expected)
    | ClsAttr.strs hd _ =>
      if hd = expected then
        if addr = 0 then Except.error ("Null pointer for " ++ expected)
        else Except.ok addr
      else
        Except.error ("Unexpected pointer class " ++ hd ++ " (wanted " ++ expected ++ ")")
  | _ => Except.error ("Expected external pointer for " ++ expected)

/-- `bench_from_xptr` (line 284): unwrap with expected tag
`nvbench_benchmark`. -/
def bench_from_xptr (bench : SEXPv) : Except String Nat :=
  unwrap_ptr bench "nvbench_benchmark"

/-- `state_from_xptr` (line 289): unwrap with expected tag
`nvbench_state`. -/
def state_from_xptr (state : SEXPv) : Except String Nat :=
  unwrap_ptr state "nvbench_state"

/-- `launch_from_xptr` (line 294): unwrap with expected tag
`nvbench_launch`. -/
def launch_from_xptr (launch : SEXPv) : Except String Nat :=
  unwrap_ptr launch "nvbench_launch"

/-- `stream_from_xptr` (line 299): unwrap with expected tag
`nvbench_stream`. -/
def stream_from_xptr (stream : SEXPv) : Except String Nat :=
  unwrap_ptr stream "nvbench_stream"

/-- Truncation toward zero of a rational, the semantics of C++
`static_cast<int64_t>(double)` for in-range values (nvbenchr.cpp line
141 performs no range or integrality check). -/
def truncRat (q : Rat) : Int :=
  if 0 ≤ q.num then Int.ofNat (q.num.toNat / q.den)
  else - Int.ofNat ((- q.num).toNat / q.den)

/-- `as_string` (line 108): `Rcpp::as<std::string>` succeeds exactly on a
length-one character vector; any other input raises
`Expected string for <name>`. -/
def as_string (s : SEXPv) (name : String) : Except String String :=
  match s with
  | SEXPv.strVec [v] => Except.ok v
  | _ => Except.error ("Expected string for " ++ name)

/-- `as_string_vec` (line 120): `Rcpp::as<std::vector<std::string>>`
succeeds on a character vector; anything else raises
`Expected character vector for <name>`. -/
def as_string_vec (s : SEXPv) (name : String) : Except String (List String) :=
  match s with
  | SEXPv.strVec ss => Except.ok ss
  | _ => Except.error ("Expected character vector for " ++ name)

/-- `as_int64_vec` (line 132): converts the SEXP to a vector of doubles
(`Rcpp::as<std::vector<double>>` accepts real, integer and logical
vectors by coercion) and then casts each element to int64 with
`static_cast`, i.e. truncation toward zero, with no range or
integrality check; non-numeric input raises
`Expected numeric vector for <name>`. -/
def as_int64_vec (s : SEXPv) (name : String) : Except String (List Int) :=
  match s with
  | SEXPv.num xs => Except.ok (xs.map truncRat)
  | SEXPv.int xs => Except.ok xs
  | SEXPv.lgl b => Except.ok [if b then 1 else 0]
  | _ => Except.error ("Expected numeric vector for " ++ name)

/-- A value stored in a summary by `set_int64` / `set_float64` /
`set_string` on `nvbench::summary`. -/
inductive SummaryVal : Type
  | sInt (i : Int)
  | sFloat (x : Rat)
  | sStr (s : String)
deriving DecidableEq, Repr

/-- One `nvbench::summary` attached to a state: its key and the ordered
field assignments made through it. -/
structure NvSummary : Type where
  key : String
  entries : List (String × SummaryVal)
deriving DecidableEq, Repr

/-- The slice of an `nvbench::state` object the modelled entry points
touch: its accumulated summaries and the native pointers returned by
`get_cuda_stream()` and `get_benchmark()`. -/
structure NvState : Type where
  summaries : List NvSummary
  streamAddr : Nat
  benchAddr : Nat
deriving DecidableEq, Repr

instance : Inhabited NvState := ⟨⟨[], 0, 0⟩⟩

/-- The slice of an `nvbench::launch` object the binding touches: the
native pointer returned by `get_stream()`. -/
structure NvLaunch : Type where
  streamAddr : Nat
deriving DecidableEq, Repr

instance : Inhabited NvLaunch := ⟨⟨0⟩⟩

/-- One benchmark held by `nvbench::benchmark_manager`: its name, the id
of the R function it runs, and the int64 axes added to it. -/
structure Bench : Type where
  name : String
  fnId : Nat
  int64Axes : List (String × List Int)
deriving DecidableEq, Repr

instance : Inhabited Bench := ⟨⟨"", 0, []⟩⟩

/-- Process-wide mutable state.  `registry` is `global_registry`: `none`
before `R_init_nvbenchr` runs, otherwise `some m_finalized`.  `manager`
is the benchmark list of `nvbench::benchmark_manager::get()`; a
benchmark pointer is its index plus one.  `states` and `launches` hold
the transient native objects reachable through handles; `runAttempts`
counts how many times the body of `GlobalBenchmarkRegistry::run` (the
`try` block that executes the benchmarks) has been entered. -/
structure World : Type where
  registry : Option Bool
  manager : List Bench
  states : List NvState
  launches : List NvLaunch
  runAttempts : Nat
deriving DecidableEq, Repr

/-- Replace the benchmark a native pointer refers to by an updated copy
(pointer `addr` refers to `manager[addr-1]`). -/
def updateBench (w : World) (addr : Nat) (f : Bench → Bench) : World :=
  { w with manager := w.manager.set (addr - 1) (f (w.manager.getD (addr - 1) default)) }

/-- Append a summary to the state a native pointer refers to. -/
def pushSummary (w : World) (addr : Nat) (s : NvSummary) : World :=
  let st := w.states.getD (addr - 1) default
  { w with states := w.states.set (addr - 1) { st with summaries := st.summaries ++ [s] } }

/-- `nvbenchr_register` (line 323): check that the global registry is
initialized, convert the name, then `GlobalBenchmarkRegistry::add_bench`
(line 229): reject when finalized, reject a non-function, otherwise add
a new benchmark to the manager whose name is `"benchmark"` when the
given name is empty, and return its pointer wrapped with class tag
`nvbench_benchmark`. -/
def nvbenchr_register (w : World) (fn nameArg : SEXPv) : Outcome × World :=
  match w.registry with
  | none => (Outcome.rerror "nvbenchr registry is not initialized", w)
  | some finalized =>
    match as_string nameArg "name" with
    | Except.error m => (Outcome.rerror m, w)
    | Except.ok n =>
      if finalized then (Outcome.rerror "Cannot register benchmarks after execution", w)
      else
        match fn with
        | SEXPv.func fid =>
          let bname := if n = "" then "benchmark" else n
          let w2 := { w with manager := w.manager ++ [{ name := bname, fnId := fid, int64Axes := [] }] }
          (Outcome.ok (wrap_ptr (w.manager.length + 1) "nvbench_benchmark"), w2)
        | _ => (Outcome.rerror "Benchmark must be a function", w)

/-- `nvbenchr_run_all_benchmarks` (line 334) followed by
`GlobalBenchmarkRegistry::run` (line 247): check the registry is
initialized, convert argv to strings, reject when the manager holds no
benchmarks, reject when already finalized, set the finalized flag, then
enter the `try` block that executes the benchmarks.  `beh` is the
behaviour of that native execution: `none` means it returns normally,
`some e` that it throws `e`; a thrown `std::exception` is caught and
re-raised as the R error `nvbench run failed: <what>`, any other
exception as `Unknown exception while running nvbench benchmarks`. -/
def nvbenchr_run_all_benchmarks (beh : Option NativeExc) (w : World) (argv : SEXPv) :
    Outcome × World :=
  match w.registry with
  | none => (Outcome.rerror "nvbenchr registry is not initialized", w)
  | some finalized =>
    match as_string_vec argv "argv" with
    | Except.error m => (Outcome.rerror m, w)
    | Except.ok _ =>
      if w.manager.isEmpty then (Outcome.rerror "No benchmarks registered", w)
      else if finalized then (Outcome.rerror "Benchmarks already executed", w)
      else
        let w2 := { w with registry := some true, runAttempts := w.runAttempts + 1 }
        match beh with
        | none => (Outcome.ok SEXPv.rnil, w2)
        | some (NativeExc.std s) => (Outcome.rerror ("nvbench run failed: " ++ s), w2)
        | some NativeExc.unknown =>
          (Outcome.rerror "Unknown exception while running nvbench benchmarks", w2)

/-- `nvbenchr_benchmark_add_int64_axis` (line 350): the statement
`auto &b = *bench_from_xptr(bench);` unwraps (and would dereference)
the handle first; only then are the name and the value vector
converted; the native `add_int64_axis` call receives the converted
arguments and the entry returns the bench handle unchanged. -/
def nvbenchr_benchmark_add_int64_axis (w : World) (bench nameArg values : SEXPv) :
    Outcome × World :=
  match bench_from_xptr bench with
  | Except.error m => (Outcome.rerror m, w)
  | Except.ok addr =>
    match as_string nameArg "name" with
    | Except.error m => (Outcome.rerror m, w)
    | Except.ok n =>
      match as_int64_vec values "values" with
      | Except.error m => (Outcome.rerror m, w)
      | Except.ok vs =>
        (Outcome.ok bench,
         updateBench w addr (fun b => { b with int64Axes := b.int64Axes ++ [(n, vs)] }))

/-- `nvbenchr_benchmark_set_name` (line 380): unwrap the handle first,
then convert the name, call `set_name`, and return the bench handle. -/
def nvbenchr_benchmark_set_name (w : World) (bench nameArg : SEXPv) : Outcome × World :=
  match bench_from_xptr bench with
  | Except.error m => (Outcome.rerror m, w)
  | Except.ok addr =>
    match as_string nameArg "name" with
    | Except.error m => (Outcome.rerror m, w)
    | Except.ok n =>
      (Outcome.ok bench, updateBench w addr (fun b => { b with name := n }))

/-- `Rcpp::wrap` of an `nvbench::int64_t`: R has no native 64-bit
integer scalar, the value comes back as a length-one double vector. -/
def wrapInt64 (v : Int) : SEXPv :=
  SEXPv.num [(v : Rat)]

/-- `nvbenchr_state_get_int64` (line 493): unwrap the state handle,
convert the name, then call `state::get_int64` on the native library
with no surrounding try/catch.  `beh` is the behaviour of that native
call; when it throws, the exception propagates out of the entry point
uncaught (`Outcome.native`). -/
def nvbenchr_state_get_int64 (beh : Except NativeExc Int) (state nameArg : SEXPv) : Outcome :=
  match state_from_xptr state with
  | Except.error m => Outcome.rerror m
  | Except.ok _ =>
    match as_string nameArg "name" with
    | Except.error m => Outcome.rerror m
    | Except.ok _ =>
      match beh with
      | Except.error e => Outcome.native e
      | Except.ok v => Outcome.ok (wrapInt64 v)

/-- `nvbenchr_state_get_stream` (line 487): unwrap the state handle and
wrap the pointer of its CUDA stream with class tag `nvbench_stream`
(`wrap_stream_xptr`, line 314, a non-owning wrap). -/
def nvbenchr_state_get_stream (w : World) (state : SEXPv) : Outcome :=
  match state_from_xptr state with
  | Except.error m => Outcome.rerror m
  | Except.ok addr =>
    Outcome.ok (wrap_ptr ((w.states.getD (addr - 1) default).streamAddr) "nvbench_stream")

/-- `nvbenchr_state_get_benchmark` (line 586): unwrap the state handle
and wrap the pointer of its benchmark with class tag
`nvbench_benchmark`. -/
def nvbenchr_state_get_benchmark (w : World) (state : SEXPv) : Outcome :=
  match state_from_xptr state with
  | Except.error m => Outcome.rerror m
  | Except.ok addr =>
    Outcome.ok (wrap_ptr ((w.states.getD (addr - 1) default).benchAddr) "nvbench_benchmark")

/-- `nvbenchr_launch_get_stream` (line 793): unwrap the launch handle
and wrap the pointer of its stream with class tag `nvbench_stream`. -/
def nvbenchr_launch_get_stream (w : World) (launch : SEXPv) : Outcome :=
  match launch_from_xptr launch with
  | Except.error m => Outcome.rerror m
  | Except.ok addr =>
    Outcome.ok (wrap_ptr ((w.launches.getD (addr - 1) default).streamAddr) "nvbench_stream")

/-- `nvbenchr_state_add_summary` (line 736): unwrap the state handle,
convert the tag name `n`, add a summary keyed `nv/r/<n>` to the state
and set its `description` field to `User tag: <n>` and its `name` field
to `n` (these mutations happen before the value is inspected); then
store the value: an integer via `set_int64` (first element cast to
int64), a real via `set_float64` (first element), a character value via
`set_string` (after `as_string`, which requires a length-one vector);
any other type raises `Unsupported value type for add_summary`. -/
def nvbenchr_state_add_summary (w : World) (state nameArg value : SEXPv) : Outcome × World :=
  match state_from_xptr state with
  | Except.error m => (Outcome.rerror m, w)
  | Except.ok addr =>
    match as_string nameArg "name" with
    | Except.error m => (Outcome.rerror m, w)
    | Except.ok n =>
      let base : NvSummary :=
        { key := "nv/r/" ++ n,
          entries := [("description", SummaryVal.sStr ("User tag: " ++ n)),
                      ("name", SummaryVal.sStr n)] }
      match value with
      | SEXPv.int xs =>
        (Outcome.ok SEXPv.rnil,
         pushSummary w addr
           { base with entries := base.entries ++ [("value", SummaryVal.sInt (xs.headD 0))] })
      | SEXPv.num xs =>
        (Outcome.ok SEXPv.rnil,
         pushSummary w addr
           { base with entries := base.entries ++ [("value", SummaryVal.sFloat (xs.headD 0))] })
      | SEXPv.strVec ss =>
        match as_string (SEXPv.strVec ss) "value" with
        | Except.error m => (Outcome.rerror m, pushSummary w addr base)
        | Except.ok v =>
          (Outcome.ok SEXPv.rnil,
           pushSummary w addr
             { base with entries := base.entries ++ [("value", SummaryVal.sStr v)] })
      | _ => (Outcome.rerror "Unsupported value type for add_summary", pushSummary w addr base)

/-- Whether an entry point outcome is a native C++ exception escaping
uncaught (as opposed to a normal return or an R error signal). -/
def isNativeOut : Outcome → Bool
  | Outcome.native _ => true
  | _ => false

/-- The ownership flag of the handle returned by an entry point
(`false` when the result is not a handle). -/
def resultOwning : Outcome → Bool
  | Outcome.ok (SEXPv.extptr _ o _) => o
  | _ => false

/-- Claim C8: every numeric vector passed to an int64-valued entry point
has each element converted double → int64 by truncation toward zero
(2.9 = 29/10 maps to 2, -2.9 to -2), with no range or integrality
check, while non-numeric input (character vectors, nil) raises the
descriptive error `Expected numeric vector for <name>`. -/
theorem int64_conversion_truncates :
    (∀ (xs : List Rat) (nm : String), as_int64_vec (SEXPv.num xs) nm = Except.ok (xs.map truncRat))
    ∧ mkRat 29 10 = (2.9 : Rat) ∧ mkRat (-29) 10 = (-2.9 : Rat)
    ∧ truncRat (mkRat 29 10) = 2 ∧ truncRat (mkRat (-29) 10) = -2
    ∧ as_int64_vec (SEXPv.num [mkRat 29 10, mkRat (-29) 10]) "values" = Except.ok [2, -2]
    ∧ (∀ (ss : List String) (nm : String),
        as_int64_vec (SEXPv.strVec ss) nm = Except.error ("Expected numeric vector for " ++ nm))
    ∧ (∀ (nm : String), as_int64_vec SEXPv.rnil nm = Except.error ("Expected numeric vector for " ++ nm)) :=
  ⟨fun _ _ => rfl, by norm_num [Rat.mkRat_eq_div], by norm_num [Rat.mkRat_eq_div],
   by decide, by decide, rfl, fun _ _ => rfl, fun _ => rfl⟩

/-- Claim C9: registering with an empty name sets the new benchmark name
to `benchmark`, a non-empty name is used exactly, the benchmark is
appended to the manager, and the returned handle carries the class tag
`nvbench_benchmark` (and is non-owning). -/
theorem register_sets_name_and_tag :
    ∀ (m : List Bench) (st : List NvState) (la : List NvLaunch) (ra : Nat) (fid : Nat) (nm : String),
    nvbenchr_register ⟨some false, m, st, la, ra⟩ (SEXPv.func fid) (SEXPv.strVec [nm]) =
      (Outcome.ok (SEXPv.extptr (m.length + 1) false (ClsAttr.strs "nvbench_benchmark" [])),
       ⟨some false,
        m ++ [{ name := if nm = "" then "benchmark" else nm, fnId := fid, int64Axes := [] }],
        st, la, ra⟩) := by
  intro m st la ra fid nm
  rfl

/-- Claim C6: running with no registered benchmarks raises
`No benchmarks registered` and leaves the world unchanged — in
particular the registry is not finalized, so a registration and a
subsequent successful run are still possible afterwards. -/
theorem run_empty_registry_error :
    ∀ (f : Bool) (st : List NvState) (la : List NvLaunch) (ra : Nat) (beh : Option NativeExc)
      (args : List String) (fid : Nat) (nm : String),
    (nvbenchr_run_all_benchmarks beh ⟨some f, [], st, la, ra⟩ (SEXPv.strVec args)
        = (Outcome.rerror "No benchmarks registered", ⟨some f, [], st, la, ra⟩))
    ∧ ((nvbenchr_register ⟨some false, [], st, la, ra⟩ (SEXPv.func fid) (SEXPv.strVec [nm])).1
        = Outcome.ok (wrap_ptr 1 "nvbench_benchmark"))
    ∧ ((nvbenchr_run_all_benchmarks none
         (nvbenchr_register ⟨some false, [], st, la, ra⟩ (SEXPv.func fid) (SEXPv.strVec [nm])).2
         (SEXPv.strVec args)).1 = Outcome.ok SEXPv.rnil) := by
  intro f st la ra beh args fid nm
  refine ⟨rfl, rfl, rfl⟩

/-- Claim C4: `unwrap_ptr` yields an address only for a non-null
external pointer whose first class string equals the expected tag
(first conjunct, so any other value is rejected with an error before
the stored pointer is cast or dereferenced); a handle carrying a
different tag, a missing or non-character class attribute, a null
pointer, or a non-external-pointer value each raise the corresponding
error; and the four typed unwrappers reject handles carrying one of the
other tags, so benchmark/state/launch/stream handles cannot be
confused. -/
theorem unwrap_checks_class_tag :
    (∀ (obj : SEXPv) (exp : String) (a : Nat), unwrap_ptr obj exp = Except.ok a →
       a ≠ 0 ∧ ∃ own tl, obj = SEXPv.extptr a own (ClsAttr.strs exp tl))
    ∧ (∀ (a : Nat) (own : Bool) (hd : String) (tl : List String) (exp : String), hd ≠ exp →
       unwrap_ptr (SEXPv.extptr a own (ClsAttr.strs hd tl)) exp =
         Except.error ("Unexpected pointer class " ++ hd ++ " (wanted " ++ exp ++ ")"))
    ∧ (∀ (a : Nat) (own : Bool) (exp : String),
       unwrap_ptr (SEXPv.extptr a own ClsAttr.attrNone) exp =
         Except.error ("Invalid external pointer class for " ++ exp)
       ∧ unwrap_ptr (SEXPv.extptr a own ClsAttr.nonString) exp =
         Except.error ("Invalid external pointer class for " ++ exp)
       ∧ unwrap_ptr (SEXPv.extptr 0 own (ClsAttr.strs exp [])) exp =
         Except.error ("Null pointer for " ++ exp))
    ∧ (∀ (exp : String),
       unwrap_ptr SEXPv.rnil exp = Except.error ("Expected external pointer for " ++ exp))
    ∧ (∀ (a : Nat) (own : Bool) (tl : List String),
       state_from_xptr (SEXPv.extptr a own (ClsAttr.strs "nvbench_benchmark" tl)) =
         Except.error "Unexpected pointer class nvbench_benchmark (wanted nvbench_state)"
       ∧ bench_from_xptr (SEXPv.extptr a own (ClsAttr.strs "nvbench_state" tl)) =
         Except.error "Unexpected pointer class nvbench_state (wanted nvbench_benchmark)"
       ∧ launch_from_xptr (SEXPv.extptr a own (ClsAttr.strs "nvbench_stream" tl)) =
         Except.error "Unexpected pointer class nvbench_stream (wanted nvbench_launch)"
       ∧ stream_from_xptr (SEXPv.extptr a own (ClsAttr.strs "nvbench_launch" tl)) =
         Except.error "Unexpected pointer class nvbench_launch (wanted nvbench_stream)") := by
  refine ⟨?_, ?_, ?_, ?_, ?_⟩
  · intro obj exp a h
    cases obj with
    | extptr addr own cls =>
      cases cls with
      | attrNone => exact absurd h (by simp [unwrap_ptr])
      | nonString => exact absurd h (by simp [unwrap_ptr])
      | strs hd tl =>
        by_cases hhd : hd = exp
        · subst hhd
          by_cases haddr : addr = 0
          · subst haddr
            exact absurd h (by simp [unwrap_ptr])
          · simp [unwrap_ptr, haddr] at h
            subst h
            exact ⟨haddr, own, tl, rfl⟩
        · exact absurd h (by simp [unwrap_ptr, hhd])
    | strVec ss => exact absurd h (by simp [unwrap_ptr])
    | num xs => exact absurd h (by simp [unwrap_ptr])
    | int xs => exact absurd h (by simp [unwrap_ptr])
    | lgl b => exact absurd h (by simp [unwrap_ptr])
    | func fid => exact absurd h (by simp [unwrap_ptr])
    | rnil => exact absurd h (by simp [unwrap_ptr])
    | other => exact absurd h (by simp [unwrap_ptr])
  · intro a own hd tl exp h
    simp [unwrap_ptr, h]
  · intro a own exp
    refine ⟨rfl, rfl, by simp [unwrap_ptr]⟩
  · intro exp
    rfl
  · intro a own tl
    refine ⟨?_, ?_, ?_, ?_⟩ <;> simp [state_from_xptr, bench_from_xptr, launch_from_xptr,
      stream_from_xptr, unwrap_ptr]

/-- Claim C4 witness: a state-tagged handle presented where a benchmark
handle is expected is rejected with the tag-mismatch error. -/
theorem unwrap_checks_class_tag_witness :
    (("nvbench_state" : String) ≠ "nvbench_benchmark")
    ∧ unwrap_ptr (SEXPv.extptr 1 false (ClsAttr.strs "nvbench_state" [])) "nvbench_benchmark" =
        Except.error "Unexpected pointer class nvbench_state (wanted nvbench_benchmark)" :=
  ⟨by decide, unwrap_checks_class_tag.2.1 1 false "nvbench_state" [] "nvbench_benchmark" (by decide)⟩

/-- Claim C3: a run from an initialized, unfinalized world with a
non-empty manager always leaves the registry finalized with the manager
preserved (whether the native execution returns or throws, first
conjunct); and from any finalized world with a non-empty manager, every
call to run is rejected with an error and returns the world unchanged —
in particular `runAttempts` does not grow, so the benchmarks are never
re-executed (remaining conjuncts). -/
theorem run_at_most_once :
    ∀ (b : Bench) (m : List Bench) (st : List NvState) (la : List NvLaunch) (ra : Nat)
      (beh beh2 : Option NativeExc) (args : List String) (argv2 : SEXPv),
    ((nvbenchr_run_all_benchmarks beh ⟨some false, b :: m, st, la, ra⟩ (SEXPv.strVec args)).2
        = ⟨some true, b :: m, st, la, ra + 1⟩)
    ∧ (∃ msg, (nvbenchr_run_all_benchmarks beh2 ⟨some true, b :: m, st, la, ra⟩ argv2).1
        = Outcome.rerror msg)
    ∧ ((nvbenchr_run_all_benchmarks beh2 ⟨some true, b :: m, st, la, ra⟩ argv2).2
        = ⟨some true, b :: m, st, la, ra⟩) := by
  intro b m st la ra beh beh2 args argv2
  refine ⟨?_, ?_, ?_⟩
  · cases beh with
    | none => rfl
    | some e => cases e <;> rfl
  · cases argv2 <;> exact ⟨_, rfl⟩
  · cases argv2 <;> rfl

/-- Claim C5: once the registry is finalized, registering is rejected
with `Cannot register benchmarks after execution` and the world — in
particular the manager list — is unchanged, so no benchmark is added;
moreover no modelled operation ever changes the registry flag of a
finalized world back, so the invariant is preserved by every
operation. -/
theorem no_registration_after_finalize :
    ∀ (m : List Bench) (st : List NvState) (la : List NvLaunch) (ra : Nat) (fn : SEXPv) (nm : String),
    (nvbenchr_register ⟨some true, m, st, la, ra⟩ fn (SEXPv.strVec [nm])
        = (Outcome.rerror "Cannot register benchmarks after execution", ⟨some true, m, st, la, ra⟩))
    ∧ (∀ (w : World) (bench nameArg values : SEXPv),
        (nvbenchr_benchmark_add_int64_axis w bench nameArg values).2.registry = w.registry
        ∧ (nvbenchr_benchmark_set_name w bench nameArg).2.registry = w.registry
        ∧ (nvbenchr_state_add_summary w bench nameArg values).2.registry = w.registry)
    ∧ (∀ (beh : Option NativeExc) (argv : SEXPv),
        (nvbenchr_run_all_benchmarks beh ⟨some true, m, st, la, ra⟩ argv).2.registry = some true) := by
  intro m st la ra fn nm
  refine ⟨rfl, ?_, ?_⟩
  · intro w bench nameArg values
    refine ⟨?_, ?_, ?_⟩
    · unfold nvbenchr_benchmark_add_int64_axis
      repeat' split
      all_goals rfl
    · unfold nvbenchr_benchmark_set_name
      repeat' split
      all_goals rfl
    · unfold nvbenchr_state_add_summary
      repeat' split
      all_goals rfl
  · intro beh argv
    unfold nvbenchr_run_all_benchmarks
    repeat' split
    all_goals rfl

/-- Claim C7: `wrap_ptr` always builds a non-owning handle (ownership
flag `false`, so `Rcpp::XPtr` registers no finalizer), and every handle
returned by the handle-producing entry points is non-owning; the
embedding, like the binding, contains no operation that deallocates a
native object through a handle. -/
theorem handles_non_owning :
    (∀ (a : Nat) (c : String), wrap_ptr a c = SEXPv.extptr a false (ClsAttr.strs c []))
    ∧ (∀ (w : World) (fn nameArg : SEXPv), resultOwning (nvbenchr_register w fn nameArg).1 = false)
    ∧ (∀ (w : World) (state : SEXPv), resultOwning (nvbenchr_state_get_stream w state) = false)
    ∧ (∀ (w : World) (state : SEXPv), resultOwning (nvbenchr_state_get_benchmark w state) = false)
    ∧ (∀ (w : World) (launch : SEXPv), resultOwning (nvbenchr_launch_get_stream w launch) = false) := by
  refine ⟨fun _ _ => rfl, ?_, ?_, ?_, ?_⟩
  · intro w fn nameArg
    unfold nvbenchr_register
    repeat' split
    all_goals rfl
  · intro w state
    unfold nvbenchr_state_get_stream
    repeat' split
    all_goals rfl
  · intro w state
    unfold nvbenchr_state_get_benchmark
    repeat' split
    all_goals rfl
  · intro w launch
    unfold nvbenchr_launch_get_stream
    repeat' split
    all_goals rfl

/-- Claim C10: `nvbenchr_state_add_summary` with tag name `n` registers
a summary keyed `nv/r/<n>` whose `description` field is `User tag: <n>`
and whose `name` field is `n`; an integer value is stored via
`set_int64`, a real value via `set_float64`, a character value via
`set_string`, and any other value type (logical, nil) raises
`Unsupported value type for add_summary` (in the source the summary
with description and name was already added when that error is
raised). -/
theorem add_summary_sets_tagged_fields :
    ∀ (w : World) (a : Nat) (own : Bool) (tl : List String) (n : String),
    (∀ (i : Int) (xs : List Int),
       nvbenchr_state_add_summary w (SEXPv.extptr (a+1) own (ClsAttr.strs "nvbench_state" tl))
           (SEXPv.strVec [n]) (SEXPv.int (i :: xs))
         = (Outcome.ok SEXPv.rnil,
            pushSummary w (a+1)
              { key := "nv/r/" ++ n,
                entries := [("description", SummaryVal.sStr ("User tag: " ++ n)),
                            ("name", SummaryVal.sStr n), ("value", SummaryVal.sInt i)] }))
    ∧ (∀ (x : Rat) (xs : List Rat),
       nvbenchr_state_add_summary w (SEXPv.extptr (a+1) own (ClsAttr.strs "nvbench_state" tl))
           (SEXPv.strVec [n]) (SEXPv.num (x :: xs))
         = (Outcome.ok SEXPv.rnil,
            pushSummary w (a+1)
              { key := "nv/r/" ++ n,
                entries := [("description", SummaryVal.sStr ("User tag: " ++ n)),
                            ("name", SummaryVal.sStr n), ("value", SummaryVal.sFloat x)] }))
    ∧ (∀ (s : String),
       nvbenchr_state_add_summary w (SEXPv.extptr (a+1) own (ClsAttr.strs "nvbench_state" tl))
           (SEXPv.strVec [n]) (SEXPv.strVec [s])
         = (Outcome.ok SEXPv.rnil,
            pushSummary w (a+1)
              { key := "nv/r/" ++ n,
                entries := [("description", SummaryVal.sStr ("User tag: " ++ n)),
                            ("name", SummaryVal.sStr n), ("value", SummaryVal.sStr s)] }))
    ∧ (∀ (b : Bool),
       nvbenchr_state_add_summary w (SEXPv.extptr (a+1) own (ClsAttr.strs "nvbench_state" tl))
           (SEXPv.strVec [n]) (SEXPv.lgl b)
         = (Outcome.rerror "Unsupported value type for add_summary",
            pushSummary w (a+1)
              { key := "nv/r/" ++ n,
                entries := [("description", SummaryVal.sStr ("User tag: " ++ n)),
                            ("name", SummaryVal.sStr n)] }))
    ∧ (nvbenchr_state_add_summary w (SEXPv.extptr (a+1) own (ClsAttr.strs "nvbench_state" tl))
           (SEXPv.strVec [n]) SEXPv.rnil
         = (Outcome.rerror "Unsupported value type for add_summary",
            pushSummary w (a+1)
              { key := "nv/r/" ++ n,
                entries := [("description", SummaryVal.sStr ("User tag: " ++ n)),
                            ("name", SummaryVal.sStr n)] })) := by
  intro w a own tl n
  refine ⟨fun i xs => rfl, fun x xs => rfl, fun s => rfl, fun b => rfl, rfl⟩

/-- Claim C1 counterexample: `nvbenchr_state_get_int64` calls the
native `state::get_int64` with no try/catch, so when that call throws a
`std::exception` the exception escapes the entry point uncaught instead
of being converted into an R error — refuting the claim that no native
C++ exception escapes any entry point. -/
theorem native_exception_escapes_get_int64 :
    (nvbenchr_state_get_int64 (Except.error (NativeExc.std "value not found"))
        (wrap_ptr 1 "nvbench_state") (SEXPv.strVec ["x"])
      = Outcome.native (NativeExc.std "value not found"))
    ∧ (isNativeOut (nvbenchr_state_get_int64 (Except.error (NativeExc.std "value not found"))
        (wrap_ptr 1 "nvbench_state") (SEXPv.strVec ["x"])) = true) :=
  ⟨rfl, rfl⟩

/-- Claim C1 as amended: the registry entry points
(`nvbenchr_run_all_benchmarks`, `nvbenchr_register`) convert every
failure — wrong argument type, unregistered registry, double-run, and,
for the run, exceptions thrown by the native library (a
`std::exception` becomes `nvbench run failed: <what>`, an unknown
exception the generic message) — into R-level errors, and never let a
native exception escape; but entry points that call native accessors
without a try/catch, such as `nvbenchr_state_get_int64`, propagate a
thrown native exception uncaught. -/
theorem error_conversion_amended :
    (∀ (beh : Option NativeExc) (w : World) (argv : SEXPv),
        isNativeOut (nvbenchr_run_all_benchmarks beh w argv).1 = false)
    ∧ (∀ (w : World) (fn nameArg : SEXPv), isNativeOut (nvbenchr_register w fn nameArg).1 = false)
    ∧ (∀ (b : Bench) (m : List Bench) (st : List NvState) (la : List NvLaunch) (ra : Nat)
         (args : List String) (s : String),
        ((nvbenchr_run_all_benchmarks (some (NativeExc.std s)) ⟨some false, b :: m, st, la, ra⟩
            (SEXPv.strVec args)).1 = Outcome.rerror ("nvbench run failed: " ++ s))
        ∧ ((nvbenchr_run_all_benchmarks (some NativeExc.unknown) ⟨some false, b :: m, st, la, ra⟩
            (SEXPv.strVec args)).1
            = Outcome.rerror "Unknown exception while running nvbench benchmarks"))
    ∧ (∀ (a : Nat) (own : Bool) (tl : List String) (nm : String) (e : NativeExc),
        nvbenchr_state_get_int64 (Except.error e)
            (SEXPv.extptr (a+1) own (ClsAttr.strs "nvbench_state" tl)) (SEXPv.strVec [nm])
          = Outcome.native e) := by
  refine ⟨?_, ?_, ?_, ?_⟩
  · intro beh w argv
    unfold nvbenchr_run_all_benchmarks
    repeat' split
    all_goals rfl
  · intro w fn nameArg
    unfold nvbenchr_register
    repeat' split
    all_goals rfl
  · intro b m st la ra args s
    exact ⟨rfl, rfl⟩
  · intro a own tl nm e
    simp [nvbenchr_state_get_int64, state_from_xptr, unwrap_ptr, as_string]

/-- Claim C2 counterexample: calling `nvbenchr_benchmark_add_int64_axis`
with a non-handle in the bench position and a wrongly-typed (numeric)
name raises the handle-unwrap error, not the type-validation error for
the name — so type validation of the non-handle argument is not
performed before the handle unwrap is attempted. -/
theorem type_validation_not_before_unwrap :
    ((nvbenchr_benchmark_add_int64_axis ⟨some false, [], [], [], 0⟩ SEXPv.rnil
        (SEXPv.num [1]) (SEXPv.num [1])).1
      = Outcome.rerror "Expected external pointer for nvbench_benchmark")
    ∧ ((Outcome.rerror "Expected external pointer for nvbench_benchmark"
        == Outcome.rerror "Expected string for name") = false) := by
  refine ⟨rfl, by decide⟩

/-- Claim C2 as amended: each entry taking a handle plus value arguments
performs unwrap of the opaque handle first, then argument-type
validation, then the call into the external library, then returns the
(re-used) handle: an invalid handle raises the handle error whatever
the other arguments are; with a valid handle an ill-typed value
argument raises its type error and leaves the world unchanged (the
native call is not made); and with all arguments valid the native call
is recorded and the bench handle is returned. -/
theorem entry_step_order_amended :
    (∀ (w : World) (nameArg values : SEXPv),
        nvbenchr_benchmark_add_int64_axis w SEXPv.rnil nameArg values
          = (Outcome.rerror "Expected external pointer for nvbench_benchmark", w))
    ∧ (∀ (w : World) (a : Nat) (own : Bool) (tl : List String) (ns vs : List Rat),
        nvbenchr_benchmark_add_int64_axis w
            (SEXPv.extptr (a+1) own (ClsAttr.strs "nvbench_benchmark" tl))
            (SEXPv.num ns) (SEXPv.num vs)
          = (Outcome.rerror "Expected string for name", w))
    ∧ (∀ (w : World) (a : Nat) (own : Bool) (tl : List String) (nm : String) (ss : List String),
        nvbenchr_benchmark_add_int64_axis w
            (SEXPv.extptr (a+1) own (ClsAttr.strs "nvbench_benchmark" tl))
            (SEXPv.strVec [nm]) (SEXPv.strVec ss)
          = (Outcome.rerror "Expected numeric vector for values", w))
    ∧ (∀ (w : World) (a : Nat) (own : Bool) (tl : List String) (nm : String) (vs : List Rat),
        nvbenchr_benchmark_add_int64_axis w
            (SEXPv.extptr (a+1) own (ClsAttr.strs "nvbench_benchmark" tl))
            (SEXPv.strVec [nm]) (SEXPv.num vs)
          = (Outcome.ok (SEXPv.extptr (a+1) own (ClsAttr.strs "nvbench_benchmark" tl)),
             updateBench w (a+1)
               (fun b => { b with int64Axes := b.int64Axes ++ [(nm, vs.map truncRat)] })))
    ∧ (∀ (w : World) (nameArg : SEXPv),
        nvbenchr_benchmark_set_name w SEXPv.rnil nameArg
          = (Outcome.rerror "Expected external pointer for nvbench_benchmark", w))
    ∧ (∀ (w : World) (a : Nat) (own : Bool) (tl : List String) (nm : String),
        nvbenchr_benchmark_set_name w
            (SEXPv.extptr (a+1) own (ClsAttr.strs "nvbench_benchmark" tl)) (SEXPv.strVec [nm])
          = (Outcome.ok (SEXPv.extptr (a+1) own (ClsAttr.strs "nvbench_benchmark" tl)),
             updateBench w (a+1) (fun b => { b with name := nm }))) := by
  refine ⟨fun _ _ _ => rfl, ?_, ?_, ?_, fun _ _ => rfl, ?_⟩
  · intro w a own tl ns vs
    cases ns <;> rfl
  · intro w a own tl nm ss
    rfl
  · intro w a own tl nm vs
    rfl
  · intro w a own tl nm
    rfl
